import Mathlib

/-!
Verification of the plan-execution engine of the `aws-ai-2025` repository
(`agent-core/ea_multiagent.py`, `agent-core/schema_list.py`,
`agent-core/utils.py`) against its natural-language specification.

Python values that flow through the engine are JSON-shaped (the code reads
them from `json.loads` and writes them with `json.dumps`), so the shallow
embedding represents every dynamically-typed Python value by the inductive
type `Json` below.  Python `None` is represented by `Json.null` (for data
coming from `json.loads`, JSON `null` *is* Python `None`).  External
collaborators (the LLM sub-agents, the HTTP gateway, AWS SES) are modelled
as oracle functions collected in an `Env` record; everything else is
translated statement-by-statement from the source.  A Python `raise` is
modelled as `Except.error` carrying the text that `str(e)` would produce
(for a few exotic branches the message is an abbreviation of CPython's
wording; no claim depends on those strings).
-/

/-- Json models a dynamically-typed Python value as it appears in this
code base: the output of `json.loads`, the payload dictionaries, and the
values stored in the dataclasses.  Numbers are restricted to integers:
every numeric value the engine manipulates (`executionOrder`, status
codes) is an integer. -/
inductive Json where
  | null : Json
  | bool (b : Bool) : Json
  | num (n : Int) : Json
  | str (s : String) : Json
  | arr (elems : List Json) : Json
  | obj (fields : List (String × Json)) : Json

mutual

/-- Structural equality on `Json`, modelling Python `==` at the places the
source uses it.  (Every comparison in the source compares against a string
literal, so Python's order-insensitive dict equality and `1 == True`
quirks are unreachable and need not be modelled.) -/
def Json.beq : Json → Json → Bool
  | .null, .null => true
  | .bool a, .bool b => a == b
  | .num a, .num b => a == b
  | .str a, .str b => a == b
  | .arr a, .arr b => Json.beqList a b
  | .obj a, .obj b => Json.beqKVList a b
  | _, _ => false

/-- Elementwise equality of Json lists. -/
def Json.beqList : List Json → List Json → Bool
  | [], [] => true
  | a :: as, b :: bs => Json.beq a b && Json.beqList as bs
  | _, _ => false

/-- Elementwise equality of key/value lists. -/
def Json.beqKVList : List (String × Json) → List (String × Json) → Bool
  | [], [] => true
  | (ka, va) :: as, (kb, vb) :: bs => ka == kb && Json.beq va vb && Json.beqKVList as bs
  | _, _ => false

end

/-- Python `==` as used by the source (`status == 'error'` and similar). -/
def pyEq (a b : Json) : Bool := Json.beq a b

/-- Python truthiness (`if not tool_name`, `if text_content`, `or {}`). -/
def pyTruthy : Json → Bool
  | .null => false
  | .bool b => b
  | .num n => n != 0
  | .str s => !s.isEmpty
  | .arr xs => !xs.isEmpty
  | .obj kvs => !kvs.isEmpty

/-- Name of the Python type of a value, used in exception messages. -/
def pyTypeName : Json → String
  | .null => "NoneType"
  | .bool _ => "bool"
  | .num _ => "int"
  | .str _ => "str"
  | .arr _ => "list"
  | .obj _ => "dict"

/-- True exactly on `Json.obj`, modelling `isinstance(x, dict)`. -/
def Json.isObj : Json → Bool
  | .obj _ => true
  | _ => false

/-- True exactly on `Json.arr`, modelling `isinstance(x, list)`. -/
def Json.isArr : Json → Bool
  | .arr _ => true
  | _ => false

/-- True exactly on `Json.str`, modelling `isinstance(x, str)`. -/
def Json.isStr : Json → Bool
  | .str _ => true
  | _ => false

mutual

/-- Python `repr` of a value (`str` of a non-string container).  Needed
because the source stringifies whole values into messages and ids. -/
def pyRepr : Json → String
  | .null => "None"
  | .bool true => "True"
  | .bool false => "False"
  | .num n => toString n
  | .str s => "\x27" ++ s ++ "\x27"
  | .arr xs => "[" ++ String.intercalate ", " (pyReprList xs) ++ "]"
  | .obj kvs => "\x7b" ++ String.intercalate ", " (pyReprKVList kvs) ++ "\x7d"

/-- Repr of the elements of a list value. -/
def pyReprList : List Json → List String
  | [] => []
  | x :: xs => pyRepr x :: pyReprList xs

/-- Repr of the entries of a dict value. -/
def pyReprKVList : List (String × Json) → List String
  | [] => []
  | (k, v) :: kvs => ("\x27" ++ k ++ "\x27: " ++ pyRepr v) :: pyReprKVList kvs

end

/-- Python `str()` of a value: identity on strings, `repr` otherwise. -/
def pyStr : Json → String
  | .str s => s
  | v => pyRepr v

/-- First-occurrence lookup in a dict's key/value list (Python dicts have
unique keys, which the JSON parser below preserves). -/
def dictLookup : List (String × Json) → String → Option Json
  | [], _ => none
  | (k0, v0) :: rest, k => if k0 == k then some v0 else dictLookup rest k

/-- Python `d[k] = v` on a dict: replaces in place, else appends
(insertion-order semantics). -/
def dictSet : List (String × Json) → String → Json → List (String × Json)
  | [], k, v => [(k, v)]
  | (k0, v0) :: rest, k, v =>
    if k0 == k then (k0, v) :: rest else (k0, v0) :: dictSet rest k v

/-- Key-presence test on a dict value; false on non-dicts. -/
def hasKey (v : Json) (k : String) : Bool :=
  match v with
  | .obj kvs => (dictLookup kvs k).isSome
  | _ => false

/-- d.get(k, default) on a value that is statically known to be a dict
(used only where the source guarantees it, e.g. the result of
`send_ses_email`, which returns a dict on every path). -/
def jsonGetD (v : Json) (k : String) (d : Json) : Json :=
  match v with
  | .obj kvs => (dictLookup kvs k).getD d
  | _ => d

/-- Substring test on character lists (for Python `'a' in "text"`). -/
def charsStartWith : List Char → List Char → Bool
  | [], _ => true
  | _ :: _, [] => false
  | a :: as, b :: bs => a == b && charsStartWith as bs

/-- Containment of `needle` in `hay` as character lists. -/
def charsHasSub (needle : List Char) : List Char → Bool
  | [] => needle.isEmpty
  | c :: rest => charsStartWith needle (c :: rest) || charsHasSub needle rest

/-- Python `k in v`: key test on dicts, membership on lists, substring on
strings, `TypeError` otherwise. -/
def pyIn (k : String) (v : Json) : Except String Bool :=
  match v with
  | .obj kvs => .ok ((dictLookup kvs k).isSome)
  | .arr xs => .ok (xs.any (fun x => pyEq x (.str k)))
  | .str s => .ok (charsHasSub k.data s.data)
  | _ => .error ("argument of type \x27" ++ pyTypeName v ++ "\x27 is not iterable")

/-- Python `v[k]` with a string key: raises `KeyError` on a missing dict
key and `TypeError` on non-dicts. -/
def pySubscript (v : Json) (k : String) : Except String Json :=
  match v with
  | .obj kvs =>
    match dictLookup kvs k with
    | some x => .ok x
    | none => .error ("\x27" ++ k ++ "\x27")
  | .str _ => .error "string indices must be integers"
  | .arr _ => .error "list indices must be integers or slices, not str"
  | _ => .error ("\x27" ++ pyTypeName v ++ "\x27 object is not subscriptable")

/-- Python `v.get(k, default)`: `AttributeError` on non-dicts (this is the
crash reached when `comm_response.apiPayload` is `None`). -/
def pyDictGet (v : Json) (k : String) (d : Json) : Except String Json :=
  match v with
  | .obj kvs => .ok ((dictLookup kvs k).getD d)
  | _ => .error ("\x27" ++ pyTypeName v ++ "\x27 object has no attribute \x27get\x27")

/-- Python `v[k] = x`: succeeds on dicts, `TypeError` otherwise; in
particular `None` payloads crash here (`call_tool_set_in_sync` line 163,
before the `or {}` default is consulted). -/
def pySetItem (v : Json) (k : String) (x : Json) : Except String Json :=
  match v with
  | .obj kvs => .ok (.obj (dictSet kvs k x))
  | .null => .error "\x27NoneType\x27 object does not support item assignment"
  | _ => .error ("\x27" ++ pyTypeName v ++ "\x27 object does not support item assignment")

/-! JSON parsing.  Models `json.loads` on the strings the engine decodes.
A fueled recursive-descent parser over character lists; the fuel is
consumed at each recursive entry and `input length + 1` is always enough
because every recursive call first consumes at least one character.
Number literals are restricted to integers, as everywhere in this code
base. -/

/-- Whitespace skipped by the JSON grammar (space, tab, newline, return). -/
def isJsonWs (c : Char) : Bool :=
  c = ' ' || c = '\t' || c = '\n' || c = '\r'

/-- Drop leading JSON whitespace. -/
def skipJsonWs (cs : List Char) : List Char := cs.dropWhile isJsonWs

/-- Scan the body of a JSON string literal after the opening quote,
handling the standard escapes; rejects raw control characters as
`json.loads` does in strict mode. -/
def parseStringBody : List Char → List Char → Option (String × List Char)
  | [], _ => none
  | '"' :: rest, acc => some (String.mk acc.reverse, rest)
  | '\\' :: e :: rest, acc =>
    match e with
    | '"' => parseStringBody rest ('"' :: acc)
    | '\\' => parseStringBody rest ('\\' :: acc)
    | '/' => parseStringBody rest ('/' :: acc)
    | 'n' => parseStringBody rest ('\n' :: acc)
    | 't' => parseStringBody rest ('\t' :: acc)
    | 'r' => parseStringBody rest ('\r' :: acc)
    | 'b' => parseStringBody rest ('\x08' :: acc)
    | 'f' => parseStringBody rest ('\x0c' :: acc)
    | _ => none
  | c :: rest, acc => if c.toNat < 32 then none else parseStringBody rest (c :: acc)

/-- Parse a JSON integer literal (optional minus sign, no leading zeros). -/
def parseIntLit (cs : List Char) : Option (Int × List Char) :=
  let (neg, cs1) :=
    match cs with
    | '-' :: rest => (true, rest)
    | _ => (false, cs)
  let digits := cs1.takeWhile Char.isDigit
  let rest := cs1.dropWhile Char.isDigit
  if digits.isEmpty then none
  else if digits.length > 1 && digits.headD '0' = '0' then none
  else
    let n : Int := digits.foldl (fun a c => a * 10 + Int.ofNat (c.toNat - 48)) 0
    some (if neg then -n else n, rest)

mutual

/-- Parse one JSON value, leading whitespace allowed. -/
def parseVal : Nat → List Char → Option (Json × List Char)
  | 0, _ => none
  | fuel + 1, cs =>
    match skipJsonWs cs with
    | '\x7b' :: rest => parseObjBody fuel rest []
    | '[' :: rest => parseArrBody fuel rest []
    | '"' :: rest =>
      match parseStringBody rest [] with
      | some (s, rest2) => some (.str s, rest2)
      | none => none
    | 't' :: 'r' :: 'u' :: 'e' :: rest => some (.bool true, rest)
    | 'f' :: 'a' :: 'l' :: 's' :: 'e' :: rest => some (.bool false, rest)
    | 'n' :: 'u' :: 'l' :: 'l' :: rest => some (.null, rest)
    | cs2 =>
      match parseIntLit cs2 with
      | some (n, rest) => some (.num n, rest)
      | none => none

/-- Parse the members of an object after `\x7b`, accumulating entries with
last-key-wins semantics as `json.loads` does. -/
def parseObjBody : Nat → List Char → List (String × Json) → Option (Json × List Char)
  | 0, _, _ => none
  | fuel + 1, cs, acc =>
    match skipJsonWs cs with
    | '\x7d' :: rest => some (.obj acc, rest)
    | '"' :: rest =>
      match parseStringBody rest [] with
      | none => none
      | some (k, rest2) =>
        match skipJsonWs rest2 with
        | ':' :: rest3 =>
          match parseVal fuel rest3 with
          | none => none
          | some (v, rest4) =>
            match skipJsonWs rest4 with
            | ',' :: rest5 => parseObjBody fuel rest5 (dictSet acc k v)
            | '\x7d' :: rest5 => some (.obj (dictSet acc k v), rest5)
            | _ => none
        | _ => none
    | _ => none

/-- Parse the elements of an array after `[`. -/
def parseArrBody : Nat → List Char → List Json → Option (Json × List Char)
  | 0, _, _ => none
  | fuel + 1, cs, acc =>
    match skipJsonWs cs with
    | ']' :: rest => some (.arr acc.reverse, rest)
    | cs2 =>
      match parseVal fuel cs2 with
      | none => none
      | some (v, rest) =>
        match skipJsonWs rest with
        | ',' :: rest2 => parseArrBody fuel rest2 (v :: acc)
        | ']' :: rest2 => some (.arr (v :: acc).reverse, rest2)
        | _ => none

end

/-- Model of `json.loads` on a character list: one JSON value with only
whitespace around it, else a decode failure (`none`). -/
def jsonLoadsL (cs : List Char) : Option Json :=
  match parseVal (cs.length + 1) cs with
  | some (v, rest) => if (skipJsonWs rest).isEmpty then some v else none
  | none => none

/-- Model of `json.loads` on a `String`. -/
def jsonLoads (s : String) : Option Json := jsonLoadsL s.data

/-! Response Sanitizer: `clean_agent_json_response` (`utils.py` lines
21-70).  The function first stringifies its argument
(`response_text = str(agent_result)`, line 39) -- so the subsequent
`hasattr` branches and the `isinstance` fallbacks operate on a `str` and
are dead -- then, unless the string is empty, applies two `re.sub` passes
and a final `.strip()`:

  re.sub(r a, '', s, flags=re.IGNORECASE)  with  a = caret ``` (?:json)? \s* \n?
  re.sub(r b, '', s)                       with  b = \n? \s* ``` dollar

The first pattern is anchored at the start of the string: it matches
exactly when the string begins with three backticks, then greedily
consumes an optional case-insensitive `json` tag and every following
whitespace character (`\s*` already subsumes the final `\n?`).  The
second is anchored at the end: Python's dollar matches at the end of the
string or just before one final newline, and the pattern's literal
backticks must sit immediately at that position, preceded by the maximal
(leftmost match) whitespace run; so it fires exactly when the string ends
in three backticks, or in three backticks followed by one newline. -/

/-- Whitespace for Python's `\s` and `str.strip()` (ASCII range). -/
def isPyWs (c : Char) : Bool :=
  c = ' ' || c = '\t' || c = '\n' || c = '\r' || c = '\x0b' || c = '\x0c'

/-- Drop leading Python whitespace. -/
def skipPyWs (cs : List Char) : List Char := cs.dropWhile isPyWs

/-- Drop trailing Python whitespace. -/
def rstripPyWs (cs : List Char) : List Char := List.rdropWhile isPyWs cs

/-- Python `str.strip()` on a character list. -/
def pyStripL (cs : List Char) : List Char := rstripPyWs (skipPyWs cs)

/-- Consume a leading case-insensitive `json` language tag if present
(the greedy `(?:json)?` group of the opening-fence pattern). -/
def dropJsonTag : List Char → List Char
  | c1 :: c2 :: c3 :: c4 :: rest =>
    if c1.toLower = 'j' && c2.toLower = 's' && c3.toLower = 'o' && c4.toLower = 'n' then rest
    else c1 :: c2 :: c3 :: c4 :: rest
  | cs => cs

/-- The opening-fence `re.sub`: if the string starts with three backticks,
remove them together with an optional `json` tag and the following
whitespace run; otherwise leave the string unchanged. -/
def subOpenFence (cs : List Char) : List Char :=
  match cs with
  | '`' :: '`' :: '`' :: rest => skipPyWs (dropJsonTag rest)
  | _ => cs

/-- The closing-fence `re.sub`: remove a final three-backtick marker (with
the whitespace run before it); a single newline may follow the marker
(Python's end-of-string anchor) and is kept. -/
def subCloseFence (cs : List Char) : List Char :=
  match cs.reverse with
  | '`' :: '`' :: '`' :: r => (r.dropWhile isPyWs).reverse
  | '\n' :: '`' :: '`' :: '`' :: r => ('\n' :: r.dropWhile isPyWs).reverse
  | _ => cs

/-- The string pipeline of `clean_agent_json_response`: empty input is
returned as is (the `if not response_text` early return), anything else
goes through both fence substitutions and a final strip. -/
def cleanL (cs : List Char) : List Char :=
  if cs.isEmpty then cs else pyStripL (subCloseFence (subOpenFence cs))

/-- String-typed wrapper of `cleanL`. -/
def cleanStr (s : String) : String := String.mk (cleanL s.data)

/-- Model of `clean_agent_json_response` on an arbitrary value: the value
is stringified first (line 39), so the result is always a string. -/
def cleanAgentJsonResponse (v : Json) : Json := .str (cleanStr (pyStr v))

/-! Data model (`schema_list.py`).  The dataclasses carry whatever values
the untrusted JSON supplied -- the validators check key presence, not
value types -- so every field that Python leaves duck-typed is `Json`
here.  A field whose source default is `None` holds `Json.null` when
absent. -/

/-- Schema for the incoming email payload (`EmailPayload`). -/
structure EmailPayload where
  from_email : Json
  «to» : Json
  cc : Json
  agent_email : Json
  subject : Json
  body : Json
  today : Json := .null

/-- Schema for one step of an execution plan (`PlanStep`). -/
structure PlanStep where
  executionOrder : Json
  intent : Json
  stepOutcome : Json
  context : Json
  toolName : Json := .null

/-- Schema for the complete execution plan (`ExecutionPlan`). -/
structure ExecutionPlan where
  goal : Json
  deliverable : Json
  steps : List PlanStep

/-- Projection of a step passed to the sub-agents (`CurrentStep`). -/
structure CurrentStep where
  executionOrder : Json
  stepOutcome : Json
  context : Json
  toolName : Json

/-- Result record for one executed step (`StepExecutionResult`).  The
`status` field is always one of the code's own literals, hence `String`. -/
structure StepExecutionResult where
  status : String
  executionOrder : Json
  stepOutcome : Json
  context : Json
  toolName : Json
  toolCalled : Bool
  toolResponse : Json := .null
  error : Json := .null

/-- Validated response of the request-builder agent
(`RequestBuilderResponse`). -/
structure RequestBuilderResponse where
  toolName : Json
  status : Json
  apiPayload : Json := .null
  error : Json := .null

/-- Validated response of the communication agent
(`CommunicationResponse`). -/
structure CommunicationResponse where
  toolName : Json
  status : Json
  apiPayload : Json := .null
  error : Json := .null

/-- Model of `validate_email_payload`: requires the six keys, coerces a
scalar `to`/`cc` to a one-element list, performs no type checks. -/
def validateEmailPayload (payload : Json) : Except String EmailPayload :=
  match pyIn "from" payload with
  | .error e => .error e
  | .ok false => .error "Missing required field: from"
  | .ok true =>
  match pyIn "to" payload with
  | .error e => .error e
  | .ok false => .error "Missing required field: to"
  | .ok true =>
  match pyIn "cc" payload with
  | .error e => .error e
  | .ok false => .error "Missing required field: cc"
  | .ok true =>
  match pyIn "agent_email" payload with
  | .error e => .error e
  | .ok false => .error "Missing required field: agent_email"
  | .ok true =>
  match pyIn "subject" payload with
  | .error e => .error e
  | .ok false => .error "Missing required field: subject"
  | .ok true =>
  match pyIn "body" payload with
  | .error e => .error e
  | .ok false => .error "Missing required field: body"
  | .ok true =>
  match pySubscript payload "from" with
  | .error e => .error e
  | .ok fromV =>
  match pySubscript payload "to" with
  | .error e => .error e
  | .ok toV =>
  match pySubscript payload "cc" with
  | .error e => .error e
  | .ok ccV =>
  match pySubscript payload "agent_email" with
  | .error e => .error e
  | .ok agentV =>
  match pySubscript payload "subject" with
  | .error e => .error e
  | .ok subjV =>
  match pySubscript payload "body" with
  | .error e => .error e
  | .ok bodyV =>
    .ok { from_email := fromV
          «to» := if toV.isArr then toV else .arr [toV]
          cc := if ccV.isArr then ccV else .arr [ccV]
          agent_email := agentV
          subject := subjV
          body := bodyV }

/-- Check the required fields of one plan step (`validate_execution_plan`
inner loop): stops at the first missing field with the step index in the
message. -/
def requireStepFields (i : Nat) (fields : List String) (sd : Json) : Except String Unit :=
  match fields with
  | [] => .ok ()
  | f :: rest =>
    match pyIn f sd with
    | .error e => .error e
    | .ok false => .error ("Missing required field in step " ++ toString i ++ ": " ++ f)
    | .ok true => requireStepFields i rest sd

/-- One iteration of the step-validation loop of
`validate_execution_plan` (lines 129-144): field checks, the
`tool_execution` toolName key check, then construction of the `PlanStep`
in the source's evaluation order. -/
def validateOneStep (i : Nat) (sd : Json) : Except String PlanStep :=
  match requireStepFields i ["executionOrder", "intent", "stepOutcome", "context"] sd with
  | .error e => .error e
  | .ok _ =>
  match pySubscript sd "intent" with
  | .error e => .error e
  | .ok intentV =>
  match (if pyEq intentV (.str "tool_execution") then pyIn "toolName" sd else .ok true) with
  | .error e => .error e
  | .ok hasTool =>
    if !hasTool then .error ("Missing toolName for tool_execution step " ++ toString i)
    else
    match pySubscript sd "executionOrder" with
    | .error e => .error e
    | .ok eo =>
    match pySubscript sd "stepOutcome" with
    | .error e => .error e
    | .ok so =>
    match pySubscript sd "context" with
    | .error e => .error e
    | .ok cx =>
    match pyDictGet sd "toolName" .null with
    | .error e => .error e
    | .ok tn =>
      .ok { executionOrder := eo, intent := intentV, stepOutcome := so,
            context := cx, toolName := tn }

/-- Validate and convert the elements of the `steps` list in order
(`validate_execution_plan` lines 128-144). -/
def validatePlanSteps (i : Nat) (sds : List Json) (acc : List PlanStep) :
    Except String (List PlanStep) :=
  match sds with
  | [] => .ok acc
  | sd :: rest =>
    match validateOneStep i sd with
    | .error e => .error e
    | .ok st => validatePlanSteps (i + 1) rest (acc ++ [st])

/-- Model of `validate_execution_plan`: requires `goal`, `deliverable`
and a list-valued `steps`; per-step field checks as above.  Note the
empty list passes (`[]` is a list) and `toolName` is only checked for
key presence. -/
def validateExecutionPlan (d : Json) : Except String ExecutionPlan :=
  match pyIn "goal" d with
  | .error e => .error e
  | .ok false => .error "Missing required field: goal"
  | .ok true =>
  match pyIn "deliverable" d with
  | .error e => .error e
  | .ok false => .error "Missing required field: deliverable"
  | .ok true =>
  match pyIn "steps" d with
  | .error e => .error e
  | .ok false => .error "Missing or invalid field: steps"
  | .ok true =>
  match pySubscript d "steps" with
  | .error e => .error e
  | .ok stepsV =>
    match stepsV with
    | .arr sds =>
      match validatePlanSteps 0 sds [] with
      | .error e => .error e
      | .ok steps =>
        match pySubscript d "goal" with
        | .error e => .error e
        | .ok goalV =>
        match pySubscript d "deliverable" with
        | .error e => .error e
        | .ok delivV => .ok { goal := goalV, deliverable := delivV, steps := steps }
    | _ => .error "Missing or invalid field: steps"

/-- Model of `validate_request_builder_response`: requires `toolName` and
`status`; `status == 'error'` additionally requires `error`.  A `success`
response with no `apiPayload` passes and carries `None`. -/
def validateRequestBuilderResponse (d : Json) : Except String RequestBuilderResponse :=
  match pyIn "toolName" d with
  | .error e => .error e
  | .ok false => .error "Missing required field: toolName"
  | .ok true =>
  match pyIn "status" d with
  | .error e => .error e
  | .ok false => .error "Missing required field: status"
  | .ok true =>
  match pySubscript d "status" with
  | .error e => .error e
  | .ok statusV =>
  match (if pyEq statusV (.str "error") then (pyIn "error" d).map (fun b => !b) else .ok false) with
  | .error e => .error e
  | .ok missingError =>
    if missingError then .error "Error status requires error message"
    else
    match pySubscript d "toolName" with
    | .error e => .error e
    | .ok tn =>
    match pyDictGet d "apiPayload" .null with
    | .error e => .error e
    | .ok ap =>
    match pyDictGet d "error" .null with
    | .error e => .error e
    | .ok er => .ok { toolName := tn, status := statusV, apiPayload := ap, error := er }

/-- Model of `validate_communication_response` (same rules as the
request-builder validator, separate dataclass in the source). -/
def validateCommunicationResponse (d : Json) : Except String CommunicationResponse :=
  match validateRequestBuilderResponse d with
  | .error e => .error e
  | .ok r => .ok { toolName := r.toolName, status := r.status,
                   apiPayload := r.apiPayload, error := r.error }

/-- Model of `create_step_execution_result`: derives `toolName` via
`step.toolName or ""` and sets `toolCalled` to
`status == 'success' and step.intent == 'tool_execution'`. -/
def createStepExecutionResult (step : PlanStep) (status : String)
    (toolResponse : Json) (error : Json) : StepExecutionResult :=
  { status := status
    executionOrder := step.executionOrder
    stepOutcome := step.stepOutcome
    context := step.context
    toolName := if pyTruthy step.toolName then step.toolName else .str ""
    toolCalled := (status == "success") && pyEq step.intent (.str "tool_execution")
    toolResponse := toolResponse
    error := error }

/-- Model of `create_current_step`: only `tool_execution`/`communicate`
steps with a truthy `toolName` qualify. -/
def createCurrentStep (step : PlanStep) : Except String CurrentStep :=
  if !(pyEq step.intent (.str "tool_execution") || pyEq step.intent (.str "communicate"))
      || !pyTruthy step.toolName then
    .error "CurrentStep can only be created from tool_execution or communicate steps with toolName"
  else
    .ok { executionOrder := step.executionOrder, stepOutcome := step.stepOutcome,
          context := step.context, toolName := step.toolName }

/-! Tool Gateway Client (`utils.py` lines 150-254). -/

/-- Python exception classes that the gateway client distinguishes:
`json.JSONDecodeError` has its own `except` clause inside
`extract_json_from_mcp_response`; everything else escapes to the generic
handler. -/
inductive PyExc where
  | jsonDecode (msg : String)
  | other (msg : String)

/-- Model of `json.loads` as called by the gateway client: parses string
input, `TypeError` on anything else. -/
def loadsPy (v : Json) : Except PyExc Json :=
  match v with
  | .str s =>
    match jsonLoadsL s.data with
    | some j => .ok j
    | none => .error (.jsonDecode ("Expecting value: " ++ s))
  | _ => .error (.other ("the JSON object must be str, bytes or bytearray, not " ++ pyTypeName v))

/-- Python iteration over a value (`for item in content`): list elements,
string characters, dict keys; `TypeError` otherwise. -/
def pyIter (v : Json) : Except String (List Json) :=
  match v with
  | .arr xs => .ok xs
  | .str s => .ok (s.data.map (fun c => .str (String.mk [c])))
  | .obj kvs => .ok (kvs.map (fun kv => .str kv.1))
  | _ => .error ("\x27" ++ pyTypeName v ++ "\x27 object is not iterable")

/-- The error-message scan of `extract_json_from_mcp_response` (lines
227-235): walk the content items; at the first dict item with
`type == "text"`, try to parse its `text` as JSON -- on success take the
nested `error` field (if it is a dict carrying one) and stop; on a JSON
decode failure remember the raw text and keep scanning.  A missing
`text` key or a non-string text raises out of the scan. -/
def errMsgScan : List Json → String → Except String String
  | [], m => .ok m
  | it :: rest, m =>
    if it.isObj && pyEq (jsonGetD it "type" .null) (.str "text") then
      match pySubscript it "text" with
      | .error e => .error e
      | .ok tv =>
        match loadsPy tv with
        | .ok ed =>
          .ok (if ed.isObj && hasKey ed "error" then pyStr (jsonGetD ed "error" .null) else m)
        | .error (.jsonDecode _) => errMsgScan rest (pyStr tv)
        | .error (.other e) => .error e
    else errMsgScan rest m

/-- The success-path scan of `extract_json_from_mcp_response` (lines
244-254): the first dict item with `type == "text"` and truthy text is
parsed and returned; a decode failure is re-raised with a framing
message; if no such item exists the extraction fails. -/
def contentScan : List Json → Except String Json
  | [] => .error "No text content found in MCP response"
  | it :: rest =>
    if it.isObj && pyEq (jsonGetD it "type" .null) (.str "text") then
      let tv := jsonGetD it "text" (.str "")
      if pyTruthy tv then
        match loadsPy tv with
        | .ok j => .ok j
        | .error (.jsonDecode m) => .error ("Failed to parse JSON from MCP response: " ++ m)
        | .error (.other m) => .error m
      else contentScan rest
    else contentScan rest

/-- Model of `extract_json_from_mcp_response`: unwraps the nested MCP
envelope `isError`/`content`/`text`. -/
def extractJsonFromMcpResponse (mcp : Json) : Except String Json :=
  if !mcp.isObj then .error "MCP response must be a dictionary"
  else if pyTruthy (jsonGetD mcp "isError" (.bool false)) then
    match (if hasKey mcp "content" && pyTruthy (jsonGetD mcp "content" .null) then
             match pyIter (jsonGetD mcp "content" .null) with
             | .error e => (.error e : Except String String)
             | .ok items => errMsgScan items "MCP response indicates an error"
           else .ok "MCP response indicates an error") with
    | .error e => .error e
    | .ok m => .error ("MCP tool call failed: " ++ m)
  else
    let content := jsonGetD mcp "content" (.arr [])
    if !pyTruthy content then .error "MCP response has no content"
    else
      match pyIter content with
      | .error e => .error e
      | .ok items => contentScan items

/-- Dispatch on the decoded JSON-RPC response (`call_tool_set_in_sync`
lines 180-192): a `result` member is unwrapped via the MCP extractor, an
`error` member raises with the remote message, anything else raises with
the response's repr; every failure raised inside the `try` body is caught
by `except Exception` and re-raised wrapped in the
"Unexpected error while calling tool" framing. -/
def toolResponseToResult (toolName : Json) (responseData : Json) : Except String Json :=
  let inner : Except String Json :=
    match pyIn "result" responseData with
    | .error e => .error e
    | .ok true =>
      match pySubscript responseData "result" with
      | .error e => .error e
      | .ok r => extractJsonFromMcpResponse r
    | .ok false =>
      match pyIn "error" responseData with
      | .error e => .error e
      | .ok true =>
        match pySubscript responseData "error" with
        | .error e => .error e
        | .ok eo =>
          match pyDictGet eo "message" (.str "Unknown error") with
          | .error e => .error e
          | .ok msg => .error ("Tool call failed: " ++ pyStr msg)
      | .ok false => .error ("Unexpected response structure: " ++ pyRepr responseData)
  match inner with
  | .ok j => .ok j
  | .error e => .error ("Unexpected error while calling tool " ++ pyStr toolName ++ ": " ++ e)

/-- Outcome of the HTTP round-trip `requests.post` + `raise_for_status` +
`response.json()`: a network/HTTP failure (`RequestException`), a
response-body decode failure, or the decoded response data. -/
inductive PostOutcome where
  | reqError (msg : String)
  | decodeError (msg : String)
  | response (responseData : Json)

/-- The JSON-RPC request envelope built by `call_tool_set_in_sync`
(lines 164-172). -/
def buildToolCallPayload (toolName : Json) (args : Json) : Json :=
  .obj [("jsonrpc", .str "2.0"),
        ("id", .str ("call-tool-" ++ pyStr toolName)),
        ("method", .str "tools/call"),
        ("params", .obj [("name", toolName), ("arguments", args)])]

/-- Construction of the outgoing request: the `auth_email` assignment
(line 163, `api_payload["auth_email"] = agent_email`) happens first and
crashes on a `None` payload; only then is the `api_payload or \x7b\x7d`
default consulted (always a no-op, since the assigned dict is
non-empty). -/
def callToolRequest (toolName : Json) (apiPayload : Json) (agentEmail : Json) :
    Except String Json :=
  match pySetItem apiPayload "auth_email" agentEmail with
  | .error e => .error e
  | .ok args => .ok (buildToolCallPayload toolName (if pyTruthy args then args else .obj []))

/-- `x is None` (the bearer-token guard compares identity, not truth). -/
def pyIsNone : Json → Bool
  | .null => true
  | _ => false

/-- Model of `call_tool_set_in_sync`: guards, request construction, HTTP
round-trip (abstracted as `gatewayPost`), response dispatch.  A
`RequestException` is re-raised from inside its handler and therefore
not re-wrapped by the sibling `except Exception`. -/
def callToolSetInSync (accessToken : Json) (gatewayPost : Json → PostOutcome)
    (toolName : Json) (apiPayload : Json) (agentEmail : Json) : Except String Json :=
  if pyIsNone accessToken then
    .error "Access token not available. Please fetch access token first."
  else if !pyTruthy toolName then
    .error "Tool name is required for tool execution."
  else
    match callToolRequest toolName apiPayload agentEmail with
    | .error e => .error e
    | .ok payload =>
      match gatewayPost payload with
      | .reqError m => .error ("Failed to call tool " ++ pyStr toolName ++ ": " ++ m)
      | .decodeError m => .error ("Unexpected error while calling tool " ++ pyStr toolName ++ ": " ++ m)
      | .response rd => toolResponseToResult toolName rd

/-! Step Executor and Plan Runner (`ea_multiagent.py`).  The external
collaborators are collected in an environment record: the three
LLM-backed sub-agents (an agent call either returns a raw response value
or raises), the tool-gateway HTTP round-trip, and the SES send operation
(message id on success, exception text on failure). -/

/-- Oracle functions for the external collaborators of one run. -/
structure Env where
  accessToken : Json
  planningAgent : EmailPayload → Except String Json
  requestBuilderAgent : CurrentStep → List StepExecutionResult → EmailPayload → Except String Json
  communicationAgent : CurrentStep → List StepExecutionResult → EmailPayload → Except String Json
  gatewayPost : Json → PostOutcome
  sesNetwork : Json → Except String String

/-- Model of `execute_tool_call`: its `try`/`except` logs and re-raises
unchanged, so it is `call_tool_set_in_sync` with the process globals
supplied. -/
def executeToolCall (env : Env) (toolName : Json) (apiPayload : Json) (agentEmail : Json) :
    Except String Json :=
  callToolSetInSync env.accessToken env.gatewayPost toolName apiPayload agentEmail

/-- Model of `execute_planning_phase` after the agent call: clean the raw
response, decode it when it is a string (it always is -- the isinstance
branch of the source is kept for fidelity), validate as a plan.  The
phase's own `except` re-raises unchanged. -/
def executePlanningPhase (env : Env) (email : EmailPayload) : Except String ExecutionPlan :=
  match env.planningAgent email with
  | .error e => .error e
  | .ok raw =>
    match cleanAgentJsonResponse raw with
    | .str s =>
      match jsonLoads s with
      | none => .error ("Planning agent returned invalid JSON: Expecting value: " ++ s)
      | some d => validateExecutionPlan d
    | other => validateExecutionPlan other

/-- Model of `execute_request_builder_phase` after the agent call; a
decode failure raises the phase's ValueError, and the unreachable
non-string case is the `json.loads` TypeError. -/
def executeRequestBuilderPhase (env : Env) (cs : CurrentStep)
    (prev : List StepExecutionResult) (email : EmailPayload) :
    Except String RequestBuilderResponse :=
  match env.requestBuilderAgent cs prev email with
  | .error e => .error e
  | .ok raw =>
    match cleanAgentJsonResponse raw with
    | .str s =>
      match jsonLoads s with
      | none => .error ("Request builder agent returned invalid JSON: Expecting value: " ++ s)
      | some d => validateRequestBuilderResponse d
    | other =>
      .error ("the JSON object must be str, bytes or bytearray, not " ++ pyTypeName other)

/-- Model of `execute_communication_phase` (same pipeline against the
communication agent and validator). -/
def executeCommunicationPhase (env : Env) (cs : CurrentStep)
    (prev : List StepExecutionResult) (email : EmailPayload) :
    Except String CommunicationResponse :=
  match env.communicationAgent cs prev email with
  | .error e => .error e
  | .ok raw =>
    match cleanAgentJsonResponse raw with
    | .str s =>
      match jsonLoads s with
      | none => .error ("Communication agent returned invalid JSON: Expecting value: " ++ s)
      | some d => validateCommunicationResponse d
    | other =>
      .error ("the JSON object must be str, bytes or bytearray, not " ++ pyTypeName other)

/-- The reply subject of the outbound email (`execute_step` line 442):
prefix `Re: ` unless already present case-insensitively; crashes when the
original subject is not a string. -/
def replySubject (subject : Json) : Except String String :=
  match subject with
  | .str t => .ok (if !(t.toLower.startsWith "re: ") then "Re: " ++ t else t)
  | v => .error ("\x27" ++ pyTypeName v ++ "\x27 object has no attribute \x27lower\x27")

/-- The SES payload dict built by the communicate branch (`execute_step`
lines 438-444), with the source's evaluation order: the `cc` get (which
crashes on a `None` apiPayload), then the subject, then the `body` get. -/
def buildSesPayload (cr : CommunicationResponse) (email : EmailPayload) : Except String Json :=
  match pyDictGet cr.apiPayload "cc" (.arr []) with
  | .error e => .error e
  | .ok ccV =>
  match replySubject email.subject with
  | .error e => .error e
  | .ok subj =>
  match pyDictGet cr.apiPayload "body" (.str "") with
  | .error e => .error e
  | .ok bodyV =>
    .ok (.obj [("from", email.agent_email), ("to", .arr [email.from_email]),
               ("cc", ccV), ("subject", .str subj), ("body", bodyV)])

/-- Field checks of `send_ses_email` (lines 324-327). -/
def requireSesFields : List String → Json → Except String Unit
  | [], _ => .ok ()
  | f :: rest, p =>
    match pyIn f p with
    | .error e => .error e
    | .ok false => .error ("Missing required field in email payload: " ++ f)
    | .ok true => requireSesFields rest p

/-- Model of `send_ses_email`: the whole body sits in a `try` whose
handler converts any exception into an error dict, so the function never
raises and always returns a dict. -/
def sendSesEmail (env : Env) (apiPayload : Json) : Json :=
  let inner : Except String Json :=
    if !pyTruthy apiPayload then .error "No API payload provided"
    else
      match requireSesFields ["to", "body", "from", "subject"] apiPayload with
      | .error e => .error e
      | .ok _ =>
        match env.sesNetwork apiPayload with
        | .error e => .error e
        | .ok mid =>
          .ok (.obj [("status", .str "success"), ("messageId", .str mid),
                     ("message", .str "Email sent successfully")])
  match inner with
  | .ok j => j
  | .error e => .obj [("status", .str "error"),
                      ("error", .str ("Failed to send email via SES: " ++ e))]

/-- The `try` body of `execute_step`: the communicate branch assigns
`step.toolName = "communicate"` (line 419) as its first statement and
works with the rebound step from then on. -/
def executeStepBody (env : Env) (step : PlanStep) (prev : List StepExecutionResult)
    (email : EmailPayload) : Except String StepExecutionResult :=
  if pyEq step.intent (.str "tool_execution") then
    match createCurrentStep step with
    | .error e => .error e
    | .ok cs =>
      match executeRequestBuilderPhase env cs prev email with
      | .error e => .error e
      | .ok br =>
        if pyEq br.status (.str "error") then
          .ok (createStepExecutionResult step "error" .null br.error)
        else if pyEq br.status (.str "needs_clarification") then
          .ok (createStepExecutionResult step "error" .null
                (.str "Request builder needs clarification"))
        else
          match executeToolCall env step.toolName br.apiPayload email.agent_email with
          | .error e => .error e
          | .ok tr => .ok (createStepExecutionResult step "success" tr .null)
  else if pyEq step.intent (.str "communicate") then
    let step2 : PlanStep := { step with toolName := .str "communicate" }
    match createCurrentStep step2 with
    | .error e => .error e
    | .ok cs =>
      match executeCommunicationPhase env cs prev email with
      | .error e => .error e
      | .ok cr =>
        if pyEq cr.status (.str "error") then
          .ok (createStepExecutionResult step2 "error" .null cr.error)
        else if pyEq cr.status (.str "needs_clarification") then
          .ok (createStepExecutionResult step2 "error" .null
                (.str "Communication agent needs clarification"))
        else
          match buildSesPayload cr email with
          | .error e => .error e
          | .ok sesPayload =>
            let tr := sendSesEmail env sesPayload
            if pyEq (jsonGetD tr "status" .null) (.str "error") then
              .ok (createStepExecutionResult step2 "error" .null
                    (jsonGetD tr "error" (.str "Failed to send email")))
            else
              .ok (createStepExecutionResult step2 "success" tr .null)
  else if pyEq step.intent (.str "replan") then
    .ok (createStepExecutionResult step "success"
          (.obj [("message", .str "Replanning step processed")]) .null)
  else
    .error ("Unknown step intent: " ++ pyStr step.intent)

/-- Post-state of the `step` object after `execute_step` touched it: the
only assignment to it in the source is `step.toolName = "communicate"` at
the top of the communicate branch, so the step leaves execution mutated
exactly when its intent is `communicate` (the mutation survives even when
the branch later raises). -/
def mutatedStep (step : PlanStep) : PlanStep :=
  if pyEq step.intent (.str "communicate") then { step with toolName := .str "communicate" }
  else step

/-- Post-states of one step execution.  The email payload is threaded
through unchanged because `execute_step` contains no assignment to it. -/
structure StepOut where
  result : StepExecutionResult
  stepPost : PlanStep
  emailPost : EmailPayload

/-- Model of `execute_step`: the step boundary's `except Exception`
converts any raise into a failed result built from the step variable as
the handler sees it -- the mutated step when the communicate branch ran,
the original step otherwise, which is `mutatedStep step` in either
case. -/
def executeStep (env : Env) (step : PlanStep) (prev : List StepExecutionResult)
    (email : EmailPayload) : StepOut :=
  match executeStepBody env step prev email with
  | .ok r => { result := r, stepPost := mutatedStep step, emailPost := email }
  | .error e =>
    { result := createStepExecutionResult (mutatedStep step) "error" .null (.str e)
      stepPost := mutatedStep step
      emailPost := email }

/-- Recursion of `execute_plan`: run the steps in list order, feeding each
step the accumulated history, appending the new result regardless of its
status. -/
def executePlanAux (env : Env) (email : EmailPayload) :
    List PlanStep → List StepExecutionResult → List StepExecutionResult × List PlanStep
  | [], acc => (acc, [])
  | s :: rest, acc =>
    let out := executeStep env s acc email
    let (results, posts) := executePlanAux env email rest (acc ++ [out.result])
    (results, out.stepPost :: posts)

/-- Model of `execute_plan`: returns the full result list and the
post-states of the plan's steps. -/
def executePlan (env : Env) (plan : ExecutionPlan) (email : EmailPayload) :
    List StepExecutionResult × List PlanStep :=
  executePlanAux env email plan.steps []

/-- Value returned by the entry point: either the structured error object
or the completed run summary (the summary's `execution_results`
projection keeps the full records here). -/
inductive InvokeResult where
  | err (msg : String)
  | completed (goal deliverable : Json) (totalSteps successfulSteps failedSteps : Nat)
      (executionResults : List StepExecutionResult)

/-- Model of `invoke`: payload shape check, email validation, planning
phase, plan execution, summary construction.  Each failure is caught and
converted to an error object with the phase's framing text. -/
def invoke (env : Env) (payload : Json) : InvokeResult :=
  if !payload.isObj then .err "Invalid payload format. Expected a dictionary."
  else
    match validateEmailPayload payload with
    | .error e => .err ("Email payload validation failed: " ++ e)
    | .ok email =>
      match executePlanningPhase env email with
      | .error e => .err ("Planning phase failed: " ++ e)
      | .ok plan =>
        let results := (executePlan env plan email).1
        let succ := results.countP (fun r => r.status == "success")
        .completed plan.goal plan.deliverable results.length succ (results.length - succ)
          results

/-- Projection of an invoke outcome used to state concrete runs: the
counts together with the per-step status strings. -/
def summaryOf : InvokeResult → Option (Nat × Nat × Nat × List String)
  | .err _ => none
  | .completed _ _ n s f rs => some (n, s, f, rs.map (fun r => r.status))

/-! Concrete run artifacts used by the claim theorems: a triggering email
payload, a three-step plan whose second step fails in the request
builder, an environment for that run, and small variations. -/

/-- A well-formed triggering payload. -/
def samplePayload : Json :=
  .obj [("from", .str "a@x.com"), ("to", .arr [.str "agent@superagent.diy"]),
        ("cc", .arr []), ("agent_email", .str "agent@superagent.diy"),
        ("subject", .str "Schedule lunch"), ("body", .str "please")]

/-- The email record that `validate_email_payload` builds from
`samplePayload`. -/
def sampleEmail : EmailPayload :=
  { from_email := .str "a@x.com", «to» := .arr [.str "agent@superagent.diy"],
    cc := .arr [], agent_email := .str "agent@superagent.diy",
    subject := .str "Schedule lunch", body := .str "please" }

/-- Raw planning-agent response: a fenced three-step plan of
`tool_execution` steps. -/
def samplePlanText : String :=
  "```json\n\x7b\"goal\": \"g\", \"deliverable\": \"d\", \"steps\": [" ++
  "\x7b\"executionOrder\": 1, \"intent\": \"tool_execution\", \"stepOutcome\": \"o1\", " ++
  "\"context\": \"c1\", \"toolName\": \"t1\"\x7d, " ++
  "\x7b\"executionOrder\": 2, \"intent\": \"tool_execution\", \"stepOutcome\": \"o2\", " ++
  "\"context\": \"c2\", \"toolName\": \"t2\"\x7d, " ++
  "\x7b\"executionOrder\": 3, \"intent\": \"tool_execution\", \"stepOutcome\": \"o3\", " ++
  "\"context\": \"c3\", \"toolName\": \"t3\"\x7d]\x7d\n```"

/-- A gateway response whose MCP envelope carries the JSON text
`\x7b"ok": true\x7d`. -/
def sampleGatewayResponse : PostOutcome :=
  .response (.obj [("result",
    .obj [("isError", .bool false),
          ("content", .arr [.obj [("type", .str "text"),
                                  ("text", .str "\x7b\"ok\": true\x7d")]])])])

/-- Environment for the three-step run: the request builder fails step 2
with message `boom` and succeeds (empty payload) elsewhere. -/
def envThreeStep : Env :=
  { accessToken := .str "tok"
    planningAgent := fun _ => .ok (.str samplePlanText)
    requestBuilderAgent := fun cs _ _ =>
      if pyEq cs.executionOrder (.num 2) then
        .ok (.str "\x7b\"toolName\": \"t2\", \"status\": \"error\", \"error\": \"boom\"\x7d")
      else
        .ok (.str "\x7b\"toolName\": \"t\", \"status\": \"success\", \"apiPayload\": \x7b\x7d\x7d")
    communicationAgent := fun _ _ _ => .error "communication agent unused"
    gatewayPost := fun _ => sampleGatewayResponse
    sesNetwork := fun _ => .ok "mid-1" }

/-- A `tool_execution` step whose request builder will report success
without an `apiPayload`. -/
def stepNoPayload : PlanStep :=
  { executionOrder := .num 1, intent := .str "tool_execution",
    stepOutcome := .str "o", context := .str "c", toolName := .str "get_user" }

/-- Environment parameterized over the gateway round-trip, whose request
builder answers `success` with no `apiPayload` (which the validator
admits). -/
def mkEnvNoPayload (post : Json → PostOutcome) : Env :=
  { accessToken := .str "tok"
    planningAgent := fun _ => .error "planning agent unused"
    requestBuilderAgent := fun _ _ _ =>
      .ok (.str "\x7b\"toolName\": \"get_user\", \"status\": \"success\"\x7d")
    communicationAgent := fun _ _ _ => .error "communication agent unused"
    gatewayPost := post
    sesNetwork := fun _ => .ok "mid-1" }

/-- A `communicate` step with no tool name, as produced by the planner. -/
def stepCommunicate : PlanStep :=
  { executionOrder := .num 1, intent := .str "communicate",
    stepOutcome := .str "reply", context := .str "c", toolName := .null }

/-- Environment whose communication agent raises; only the mutation made
before the agent call matters. -/
def envCommDown : Env :=
  { accessToken := .str "tok"
    planningAgent := fun _ => .error "planning agent unused"
    requestBuilderAgent := fun _ _ _ => .error "request builder unused"
    communicationAgent := fun _ _ _ => .error "agent down"
    gatewayPost := fun _ => .reqError "gateway unused"
    sesNetwork := fun _ => .ok "mid-1" }

/-- A step with an unrecognized intent. -/
def stepBogus : PlanStep :=
  { executionOrder := .num 1, intent := .str "mystery",
    stepOutcome := .str "o", context := .str "c", toolName := .null }

/-! Helper lemmas. -/

/-- Setting a key makes it present with the given value (first-occurrence
lookup after Python-style in-place update). -/
theorem dictLookup_dictSet_self (kvs : List (String × Json)) (k : String) (v : Json) :
    dictLookup (dictSet kvs k v) k = some v := by
  induction kvs with
  | nil => simp [dictSet, dictLookup]
  | cons kv rest ih =>
    obtain ⟨k0, v0⟩ := kv
    by_cases h : (k0 == k) = true
    · simp [dictSet, dictLookup, h]
    · simp only [Bool.not_eq_true] at h
      simp [dictSet, dictLookup, h, ih]

/-- A dict is non-empty (hence truthy) after an item assignment. -/
theorem pyTruthy_obj_dictSet (kvs : List (String × Json)) (k : String) (v : Json) :
    pyTruthy (.obj (dictSet kvs k v)) = true := by
  cases kvs with
  | nil => simp [dictSet, pyTruthy]
  | cons kv rest =>
    obtain ⟨k0, v0⟩ := kv
    by_cases h : (k0 == k) = true <;> simp [dictSet, pyTruthy, h]

/-- Soundness of the Python equality test against a string literal. -/
theorem pyEq_str_iff (j : Json) (s : String) : pyEq j (.str s) = true ↔ j = .str s := by
  cases j <;> simp [pyEq, Json.beq]

/-- On a dict payload the request construction always succeeds and sends
the updated dict as the `arguments` member. -/
theorem callToolRequest_obj (tn ae : Json) (kvs : List (String × Json)) :
    callToolRequest tn (.obj kvs) ae =
      .ok (buildToolCallPayload tn (.obj (dictSet kvs "auth_email" ae))) := by
  unfold callToolRequest pySetItem
  simp [pyTruthy_obj_dictSet]

/-! Claim theorems. -/

/-- Extractor for the `params.arguments.auth_email` member of the request
that `call_tool_set_in_sync` would send for the given inputs (`none` when
the construction crashes before any request exists). -/
def outgoingAuthEmail (toolName apiPayload agentEmail : Json) : Option Json :=
  match callToolRequest toolName apiPayload agentEmail with
  | .error _ => none
  | .ok req =>
    match req with
    | .obj fields =>
      match dictLookup fields "params" with
      | some (.obj ps) =>
        match dictLookup ps "arguments" with
        | some (.obj args) => dictLookup args "auth_email"
        | _ => none
      | _ => none
    | _ => none

/-- C3: the outgoing request built by `callTool` always carries
`auth_email = agent_email`, whatever `auth_email` the caller-supplied
payload contained; two payloads differing only in (or anywhere else,
in fact) their `auth_email` produce the same outgoing `auth_email`. -/
theorem call_tool_auth_email_override (kvs kvs2 : List (String × Json)) (tn ae : Json) :
    outgoingAuthEmail tn (.obj kvs) ae = some ae ∧
    outgoingAuthEmail tn (.obj kvs2) ae = outgoingAuthEmail tn (.obj kvs) ae := by
  have base : ∀ l : List (String × Json), outgoingAuthEmail tn (.obj l) ae = some ae := by
    intro l
    unfold outgoingAuthEmail
    rw [callToolRequest_obj]
    show dictLookup (dictSet l "auth_email" ae) "auth_email" = some ae
    exact dictLookup_dictSet_self l "auth_email" ae
  exact ⟨base kvs, by rw [base kvs, base kvs2]⟩

/-- The MCP success envelope of the C2 scenario. -/
def successEnvelope : Json :=
  .obj [("isError", .bool false),
        ("content", .arr [.obj [("type", .str "text"),
                                ("text", .str "\x7b\"a\":1\x7d")]])]

/-- The MCP error envelope of the C2 scenario. -/
def errorEnvelope : Json :=
  .obj [("isError", .bool true),
        ("content", .arr [.obj [("type", .str "text"),
                                ("text", .str "\x7b\"error\":\"not found\"\x7d")]])]

/-- C2: unwrapping the gateway envelopes -- the success envelope yields
the parsed object, the error envelope fails with the message extracted
from the nested JSON's `error` field (`not found`), which the tool-call
wrapper reframes. -/
theorem call_tool_envelope_unwrapping :
    extractJsonFromMcpResponse successEnvelope = .ok (.obj [("a", .num 1)]) ∧
    toolResponseToResult (.str "t") (.obj [("result", successEnvelope)]) =
      .ok (.obj [("a", .num 1)]) ∧
    extractJsonFromMcpResponse errorEnvelope = .error "MCP tool call failed: not found" ∧
    toolResponseToResult (.str "t") (.obj [("result", errorEnvelope)]) =
      .error "Unexpected error while calling tool t: MCP tool call failed: not found" :=
  ⟨rfl, rfl, rfl, rfl⟩

/-- C7 counterexample: a structured (non-string) value handed to the
sanitizer is not returned unchanged -- it is stringified (and would be
fence-stripped like any string), so the output differs from the input. -/
theorem sanitizer_object_counterexample :
    cleanAgentJsonResponse (.obj [("a", .num 1)]) = .str "\x7b\x27a\x27: 1\x7d" ∧
    cleanAgentJsonResponse (.obj [("a", .num 1)]) ≠ .obj [("a", .num 1)] :=
  ⟨rfl, fun h => Json.noConfusion h⟩

/-- C7 amended: the sanitizer first converts any input to its string form
(line 39), so sanitizing a structured value equals sanitizing the string
representation of that value -- the fence-stripping pass is applied to it
-- and the output is always a string, never the original object. -/
theorem sanitizer_stringifies_amended (v w : Json) :
    cleanAgentJsonResponse v = cleanAgentJsonResponse (.str (pyStr v)) ∧
    (cleanAgentJsonResponse v = w → w.isStr = true) := by
  refine ⟨rfl, fun h => ?_⟩
  rw [← h]
  rfl

/-- C10: a request-builder response `success` without `apiPayload` passes
validation with a `None` payload; the subsequent tool call crashes on the
`auth_email` assignment into `None` (before the `or` default), the
gateway is never contacted (the outcome is the same for any two gateway
behaviors), and the step boundary records a failed step carrying the
`TypeError` text. -/
theorem missing_api_payload_crash_contained (post post2 : Json → PostOutcome) (ae : Json) :
    validateRequestBuilderResponse
        (.obj [("toolName", .str "get_user"), ("status", .str "success")]) =
      .ok { toolName := .str "get_user", status := .str "success",
            apiPayload := .null, error := .null } ∧
    callToolSetInSync (.str "tok") post (.str "get_user") .null ae =
      .error "\x27NoneType\x27 object does not support item assignment" ∧
    (executeStep (mkEnvNoPayload post) stepNoPayload [] sampleEmail).result.status = "error" ∧
    (executeStep (mkEnvNoPayload post) stepNoPayload [] sampleEmail).result.error =
      .str "\x27NoneType\x27 object does not support item assignment" ∧
    (executeStep (mkEnvNoPayload post) stepNoPayload [] sampleEmail).result.toolCalled = false ∧
    executeStep (mkEnvNoPayload post) stepNoPayload [] sampleEmail =
      executeStep (mkEnvNoPayload post2) stepNoPayload [] sampleEmail :=
  ⟨rfl, rfl, rfl, rfl, rfl, rfl⟩

/-- C5: the entry point is total -- every invocation yields either a
structured error object or a completed summary -- and any exception
raised inside a step's `try` body is caught at the step boundary and
converted into a failed result carrying the exception's message. -/
theorem invoke_never_raises (env : Env) (payload : Json) (step : PlanStep)
    (prev : List StepExecutionResult) (email : EmailPayload) (e : String)
    (h : executeStepBody env step prev email = .error e) :
    ((∃ m, invoke env payload = .err m) ∨
      ∃ g d n s f rs, invoke env payload = .completed g d n s f rs) ∧
    (executeStep env step prev email).result.status = "error" ∧
    (executeStep env step prev email).result.error = .str e := by
  refine ⟨?_, ?_, ?_⟩
  · cases hI : invoke env payload with
    | err m => exact Or.inl ⟨m, rfl⟩
    | completed g d n s f rs => exact Or.inr ⟨g, d, n, s, f, rs, rfl⟩
  · simp [executeStep, h, createStepExecutionResult]
  · simp [executeStep, h, createStepExecutionResult]

/-- Witness for C5 at a concrete input: a step with the unrecognized
intent `mystery` raises inside the body and is recorded as a failed
result with that exception text. -/
theorem invoke_never_raises_witness :
    (executeStep envCommDown stepBogus [] sampleEmail).result.status = "error" ∧
    (executeStep envCommDown stepBogus [] sampleEmail).result.error =
      .str "Unknown step intent: mystery" :=
  ⟨(invoke_never_raises envCommDown samplePayload stepBogus [] sampleEmail
      "Unknown step intent: mystery" rfl).2.1,
   (invoke_never_raises envCommDown samplePayload stepBogus [] sampleEmail
      "Unknown step intent: mystery" rfl).2.2⟩

/-- The post-state step always has the original intent. -/
theorem mutatedStep_intent (step : PlanStep) : (mutatedStep step).intent = step.intent := by
  unfold mutatedStep
  split <;> rfl

/-- C9: in every result the engine produces, `toolCalled` holds exactly
when the result's status is `success` and the executed step's intent is
`tool_execution`; in particular a successful `communicate` step and any
failed step report `toolCalled = false`. -/
theorem tool_called_iff (env : Env) (step : PlanStep) (prev : List StepExecutionResult)
    (email : EmailPayload) :
    (executeStep env step prev email).result.toolCalled =
      (((executeStep env step prev email).result.status == "success") &&
        pyEq step.intent (.str "tool_execution")) := by
  cases hb : executeStepBody env step prev email with
  | error e =>
    simp only [executeStep, hb, createStepExecutionResult]
    have hf : ("error" == "success") = false := rfl
    rw [hf]
    simp
  | ok r =>
    simp only [executeStep, hb]
    unfold executeStepBody at hb
    simp only [] at hb
    repeat'
      first
      | (injection hb with hr; subst hr; rfl)
      | split at hb
    all_goals simp at hb

/-- C8 counterexample: executing a `communicate` step mutates the step --
its `toolName` is overwritten with the sentinel `communicate`, so the
step is not the same after execution as before. -/
theorem step_mutation_counterexample :
    (executeStep envCommDown stepCommunicate [] sampleEmail).stepPost.toolName =
      .str "communicate" ∧
    (executeStep envCommDown stepCommunicate [] sampleEmail).stepPost ≠ stepCommunicate :=
  ⟨rfl, fun h =>
    Json.noConfusion (show Json.str "communicate" = Json.null from
      congrArg PlanStep.toolName h)⟩

/-- C8 amended: the email payload is never mutated, and a step is
unchanged by execution unless its intent is `communicate`, in which case
exactly its `toolName` field is overwritten with `communicate`. -/
theorem step_mutation_amended (env : Env) (step : PlanStep) (prev : List StepExecutionResult)
    (email : EmailPayload) :
    (executeStep env step prev email).emailPost = email ∧
    (pyEq step.intent (.str "communicate") = false →
      (executeStep env step prev email).stepPost = step) ∧
    (pyEq step.intent (.str "communicate") = true →
      (executeStep env step prev email).stepPost =
        { step with toolName := .str "communicate" }) := by
  have hpost : (executeStep env step prev email).stepPost = mutatedStep step := by
    cases hb : executeStepBody env step prev email <;> simp [executeStep, hb]
  have hemail : (executeStep env step prev email).emailPost = email := by
    cases hb : executeStepBody env step prev email <;> simp [executeStep, hb]
  refine ⟨hemail, fun h => ?_, fun h => ?_⟩
  · rw [hpost]; unfold mutatedStep; rw [h]; simp
  · rw [hpost]; unfold mutatedStep; rw [h]; simp

/-- Witness for C8 amended at concrete inputs: a non-communicate step is
returned unchanged, a communicate step with its `toolName` overwritten. -/
theorem step_mutation_amended_witness :
    (executeStep envCommDown stepBogus [] sampleEmail).stepPost = stepBogus ∧
    (executeStep envCommDown stepCommunicate [] sampleEmail).stepPost =
      { stepCommunicate with toolName := .str "communicate" } :=
  ⟨(step_mutation_amended envCommDown stepBogus [] sampleEmail).2.1 rfl,
   (step_mutation_amended envCommDown stepCommunicate [] sampleEmail).2.2 rfl⟩

/-- The runner produces exactly one result per remaining step, whatever
the steps do. -/
theorem executePlanAux_length (env : Env) (email : EmailPayload) (steps : List PlanStep)
    (acc : List StepExecutionResult) :
    (executePlanAux env email steps acc).1.length = acc.length + steps.length := by
  induction steps generalizing acc with
  | nil => simp [executePlanAux]
  | cons s rest ih =>
    show (executePlanAux env email rest
        (acc ++ [(executeStep env s acc email).result])).1.length = _
    rw [ih]
    simp
    omega

/-- The result list of the three-step run of `envThreeStep`: step 2 fails
in the request builder, steps 1 and 3 call the tool and succeed. -/
def threeStepResults : List StepExecutionResult :=
  [{ status := "success", executionOrder := .num 1, stepOutcome := .str "o1",
     context := .str "c1", toolName := .str "t1", toolCalled := true,
     toolResponse := .obj [("ok", .bool true)], error := .null },
   { status := "error", executionOrder := .num 2, stepOutcome := .str "o2",
     context := .str "c2", toolName := .str "t2", toolCalled := false,
     toolResponse := .null, error := .str "boom" },
   { status := "success", executionOrder := .num 3, stepOutcome := .str "o3",
     context := .str "c3", toolName := .str "t3", toolCalled := true,
     toolResponse := .obj [("ok", .bool true)], error := .null }]

set_option maxRecDepth 100000 in
/-- C1: the Plan Runner yields exactly one result per plan step with no
short-circuit on failure; every completed summary of the entry point has
`total_steps` equal to the number of results and
`successful_steps + failed_steps = total_steps`; and the concrete
three-step run whose second step fails still executes step 3 and reports
`3/2/1` with statuses success, error, success. -/
theorem plan_runner_all_steps (env : Env) (plan : ExecutionPlan) (email : EmailPayload)
    (env2 : Env) (payload : Json) (g dl : Json) (n s f : Nat)
    (rs : List StepExecutionResult)
    (h : invoke env2 payload = .completed g dl n s f rs) :
    (executePlan env plan email).1.length = plan.steps.length ∧
    (n = rs.length ∧ s + f = n ∧ s = rs.countP (fun r => r.status == "success")) ∧
    invoke envThreeStep samplePayload =
      .completed (.str "g") (.str "d") 3 2 1 threeStepResults ∧
    summaryOf (invoke envThreeStep samplePayload) =
      some (3, 2, 1, ["success", "error", "success"]) := by
  refine ⟨?_, ?_, rfl, rfl⟩
  · have := executePlanAux_length env email plan.steps []
    simpa [executePlan] using this
  · unfold invoke at h
    split at h
    · simp at h
    · split at h
      · simp at h
      · split at h
        · simp at h
        · injection h with h1 h2 h3 h4 h5 h6
          subst h3
          subst h4
          subst h5
          subst h6
          refine ⟨rfl, ?_, rfl⟩
          exact Nat.add_sub_cancel' (List.countP_le_length _)

set_option maxRecDepth 100000 in
/-- Witness for C1 at the concrete three-step run. -/
theorem plan_runner_all_steps_witness :
    3 = threeStepResults.length ∧ 2 + 1 = 3 ∧
    2 = threeStepResults.countP (fun r => r.status == "success") :=
  (plan_runner_all_steps envThreeStep { goal := .str "g", deliverable := .str "d", steps := [] }
    sampleEmail envThreeStep samplePayload (.str "g") (.str "d") 3 2 1 threeStepResults
    rfl).2.1

/-- C4 counterexample: `validate_execution_plan` accepts an empty steps
list, and accepts a `tool_execution` step whose `toolName` is the empty
string (only key presence is checked) -- both violating the claimed
non-emptiness requirements. -/
theorem validate_plan_counterexample :
    validateExecutionPlan
        (.obj [("goal", .str "g"), ("deliverable", .str "d"), ("steps", .arr [])]) =
      .ok { goal := .str "g", deliverable := .str "d", steps := [] } ∧
    validateExecutionPlan
        (.obj [("goal", .str "g"), ("deliverable", .str "d"),
               ("steps", .arr [.obj [("executionOrder", .num 1),
                                     ("intent", .str "tool_execution"),
                                     ("stepOutcome", .str "s"), ("context", .str "c"),
                                     ("toolName", .str "")]])]) =
      .ok { goal := .str "g", deliverable := .str "d",
            steps := [{ executionOrder := .num 1, intent := .str "tool_execution",
                        stepOutcome := .str "s", context := .str "c",
                        toolName := .str "" }] } :=
  ⟨rfl, rfl⟩

/-- Acceptance of one step according to the amended claim: the four
required keys are present, and a `tool_execution` step also carries a
`toolName` key (with any value, even null or empty). -/
def stepAccepted (sd : Json) : Bool :=
  hasKey sd "executionOrder" && hasKey sd "intent" && hasKey sd "stepOutcome" &&
  hasKey sd "context" &&
  (!(pyEq (jsonGetD sd "intent" .null) (.str "tool_execution")) || hasKey sd "toolName")

/-- Acceptance of a plan according to the amended claim: `goal` and
`deliverable` keys present, `steps` present with a list value (possibly
empty), every step accepted. -/
def planDataAccepted (d : Json) : Bool :=
  hasKey d "goal" && hasKey d "deliverable" &&
  (match d with
   | .obj kvs =>
     match dictLookup kvs "steps" with
     | some (.arr sds) => sds.all stepAccepted
     | _ => false
   | _ => false)

/-- Whether the validator returns a plan. -/
def planAcceptedByValidator (d : Json) : Bool :=
  match validateExecutionPlan d with
  | .ok _ => true
  | .error _ => false

/-- The elements of the `steps` member, for stating hypotheses. -/
def stepsOf (d : Json) : List Json :=
  match d with
  | .obj kvs =>
    match dictLookup kvs "steps" with
    | some (.arr sds) => sds
    | _ => []
  | _ => []

/-- True exactly on successful results. -/
def exceptOk {α β : Type} : Except α β → Bool
  | .ok _ => true
  | .error _ => false

/-- Ok-ness of the per-step field check matches key presence of all the
required fields. -/
theorem requireStepFields_obj (i : Nat) (fs : List String) (kvs : List (String × Json)) :
    exceptOk (requireStepFields i fs (.obj kvs)) =
      fs.all (fun f => hasKey (.obj kvs) f) := by
  induction fs with
  | nil => rfl
  | cons f rest ih =>
    show exceptOk (match (.ok ((dictLookup kvs f).isSome) : Except String Bool) with
                   | .error e => (.error e : Except String Unit)
                   | .ok false =>
                     (.error ("Missing required field in step " ++ toString i ++ ": " ++ f) :
                       Except String Unit)
                   | .ok true => requireStepFields i rest (.obj kvs)) = _
    cases hb : (dictLookup kvs f).isSome with
    | false => simp [List.all, hasKey, hb, exceptOk]
    | true => simpa [List.all, hasKey, hb] using ih


/-- Ok-ness of one step's validation matches the amended per-step
acceptance, for dict-shaped steps. -/
theorem validateOneStep_accepted (i : Nat) (kvs : List (String × Json)) :
    exceptOk (validateOneStep i (.obj kvs)) = stepAccepted (.obj kvs) := by
  have hreq := requireStepFields_obj i ["executionOrder", "intent", "stepOutcome", "context"] kvs
  unfold validateOneStep
  cases hrf : requireStepFields i ["executionOrder", "intent", "stepOutcome", "context"]
      (.obj kvs) with
  | error e =>
    rw [hrf] at hreq
    simp only [List.all_cons, List.all_nil, Bool.and_true, exceptOk] at hreq
    have h4 := hreq.symm
    simp only [Bool.and_eq_false_iff] at h4
    simp only [exceptOk, stepAccepted]
    rcases h4 with hx | hx | hx | hx <;> simp [hx]
  | ok u =>
    rw [hrf] at hreq
    simp only [List.all_cons, List.all_nil, Bool.and_true, exceptOk] at hreq
    have heo : (dictLookup kvs "executionOrder").isSome = true := by
      simp [hasKey] at hreq; tauto
    have hit : (dictLookup kvs "intent").isSome = true := by
      simp [hasKey] at hreq; tauto
    have hso : (dictLookup kvs "stepOutcome").isSome = true := by
      simp [hasKey] at hreq; tauto
    have hcx : (dictLookup kvs "context").isSome = true := by
      simp [hasKey] at hreq; tauto
    obtain ⟨eov, heov⟩ := Option.isSome_iff_exists.mp heo
    obtain ⟨itv, hitv⟩ := Option.isSome_iff_exists.mp hit
    obtain ⟨sov, hsov⟩ := Option.isSome_iff_exists.mp hso
    obtain ⟨cxv, hcxv⟩ := Option.isSome_iff_exists.mp hcx
    simp only [pySubscript, heov, hitv, hsov, hcxv, pyDictGet]
    by_cases hte : pyEq itv (.str "tool_execution") = true
    · rw [if_pos hte]
      cases htn : (dictLookup kvs "toolName").isSome with
      | false =>
        simp [pyIn, htn, exceptOk, stepAccepted, hasKey, heov, hitv, hsov, hcxv, jsonGetD, hte]
      | true =>
        simp [pyIn, htn, exceptOk, stepAccepted, hasKey, heov, hitv, hsov, hcxv, jsonGetD, hte]
    · rw [if_neg hte]
      simp only [Bool.not_eq_true] at hte
      simp [exceptOk, stepAccepted, hasKey, heov, hitv, hsov, hcxv, jsonGetD, hte]

/-- Ok-ness of the step-validation loop matches acceptance of every
(dict-shaped) step. -/
theorem validatePlanSteps_accepted (sds : List Json) (i : Nat) (acc : List PlanStep)
    (h : ∀ sd ∈ sds, sd.isObj = true) :
    exceptOk (validatePlanSteps i sds acc) = sds.all stepAccepted := by
  induction sds generalizing i acc with
  | nil => rfl
  | cons sd rest ih =>
    have hsd : sd.isObj = true := h sd (List.mem_cons_self _ _)
    have hrest : ∀ x ∈ rest, x.isObj = true := fun x hx => h x (List.mem_cons_of_mem _ hx)
    obtain ⟨kvs, rfl⟩ : ∃ kvs, sd = .obj kvs := by
      cases sd <;> first | exact ⟨_, rfl⟩ | simp [Json.isObj] at hsd
    have hone := validateOneStep_accepted i kvs
    cases hv : validateOneStep i (.obj kvs) with
    | error e =>
      rw [hv] at hone
      have hred : exceptOk (validatePlanSteps i (Json.obj kvs :: rest) acc) = false := by
        simp [validatePlanSteps, hv, exceptOk]
      rw [hred, List.all_cons, ← hone]
      simp [exceptOk]
    | ok st =>
      rw [hv] at hone
      have hred : exceptOk (validatePlanSteps i (Json.obj kvs :: rest) acc) =
          exceptOk (validatePlanSteps (i + 1) rest (acc ++ [st])) := by
        simp [validatePlanSteps, hv]
      rw [hred, ih _ _ hrest, List.all_cons, ← hone]
      simp [exceptOk]

/-- C4 amended: on a dict input whose `steps` elements are dicts, the
validator accepts exactly when `goal` and `deliverable` keys are present,
`steps` holds a list (possibly empty), every step carries the four
required keys, and every `tool_execution` step carries a `toolName` key
(its value may be empty or null); on failure no plan is returned. -/
theorem validate_plan_amended (d : Json)
    (hobj : d.isObj = true)
    (hsteps : ∀ sd ∈ stepsOf d, sd.isObj = true) :
    planAcceptedByValidator d = planDataAccepted d := by
  obtain ⟨kvs, rfl⟩ : ∃ kvs, d = .obj kvs := by
    cases d <;> first | exact ⟨_, rfl⟩ | simp [Json.isObj] at hobj
  have hval : planAcceptedByValidator (.obj kvs) =
      exceptOk (validateExecutionPlan (.obj kvs)) := by
    cases hv : validateExecutionPlan (.obj kvs) <;>
      simp [planAcceptedByValidator, exceptOk, hv]
  rw [hval]
  unfold validateExecutionPlan
  cases hg : (dictLookup kvs "goal").isSome with
  | false => simp [pyIn, hg, exceptOk, planDataAccepted, hasKey]
  | true =>
    cases hd : (dictLookup kvs "deliverable").isSome with
    | false => simp [pyIn, hg, hd, exceptOk, planDataAccepted, hasKey]
    | true =>
      cases hs : dictLookup kvs "steps" with
      | none => simp [pyIn, hg, hd, hs, exceptOk, planDataAccepted, hasKey]
      | some sv =>
        cases sv with
        | arr sds =>
          have hall : ∀ sd ∈ sds, sd.isObj = true := by
            intro x hx
            apply hsteps
            simp [stepsOf, hs]
            exact hx
          have hacc := validatePlanSteps_accepted sds 0 [] hall
          obtain ⟨gv, hgv⟩ := Option.isSome_iff_exists.mp hg
          obtain ⟨dv, hdv⟩ := Option.isSome_iff_exists.mp hd
          cases hv2 : validatePlanSteps 0 sds [] with
          | error e =>
            rw [hv2] at hacc
            simp [pyIn, hg, hd, hs, hv2, pySubscript, exceptOk, planDataAccepted, hasKey,
              ← hacc]
          | ok sts =>
            rw [hv2] at hacc
            simp [pyIn, hg, hd, hs, hv2, hgv, hdv, pySubscript, exceptOk,
              planDataAccepted, hasKey, ← hacc]
        | null => simp [pyIn, hg, hd, hs, pySubscript, exceptOk, planDataAccepted, hasKey]
        | bool b => simp [pyIn, hg, hd, hs, pySubscript, exceptOk, planDataAccepted, hasKey]
        | num n => simp [pyIn, hg, hd, hs, pySubscript, exceptOk, planDataAccepted, hasKey]
        | str s => simp [pyIn, hg, hd, hs, pySubscript, exceptOk, planDataAccepted, hasKey]
        | obj kvs2 => simp [pyIn, hg, hd, hs, pySubscript, exceptOk, planDataAccepted, hasKey]

/-- Witness for C4 amended at concrete inputs: the empty-steps plan is a
dict with dict steps and is accepted by both sides. -/
theorem validate_plan_amended_witness :
    planAcceptedByValidator
        (.obj [("goal", .str "g"), ("deliverable", .str "d"), ("steps", .arr [])]) =
      planDataAccepted
        (.obj [("goal", .str "g"), ("deliverable", .str "d"), ("steps", .arr [])]) :=
  validate_plan_amended
    (.obj [("goal", .str "g"), ("deliverable", .str "d"), ("steps", .arr [])])
    rfl (fun sd hsd => absurd hsd (List.not_mem_nil sd))

/-- Witness for C7 amended at a concrete structured input. -/
theorem sanitizer_stringifies_amended_witness :
    cleanAgentJsonResponse (.obj [("a", .num 1)]) =
      cleanAgentJsonResponse (.str (pyStr (.obj [("a", .num 1)]))) ∧
    (Json.str "\x7b\x27a\x27: 1\x7d").isStr = true :=
  ⟨(sanitizer_stringifies_amended (.obj [("a", .num 1)]) (.str "\x7b\x27a\x27: 1\x7d")).1,
   (sanitizer_stringifies_amended (.obj [("a", .num 1)]) (.str "\x7b\x27a\x27: 1\x7d")).2 rfl⟩

/-! Sanitizer fence analysis (C6). -/

/-- Dropping from the left past an already-exhausted prefix. -/
theorem dropWhile_append_of_nil {α : Type} {p : α → Bool} {l1 : List α} (l2 : List α)
    (h : l1.dropWhile p = []) : (l1 ++ l2).dropWhile p = l2.dropWhile p := by
  induction l1 with
  | nil => rfl
  | cons a l1 ih =>
    by_cases hp : p a = true
    · simp only [List.dropWhile, hp] at h ⊢
      exact ih h
    · simp only [Bool.not_eq_true] at hp
      simp only [List.dropWhile, hp] at h
      cases h

/-- Dropping from the left stops inside the first part when something
survives there. -/
theorem dropWhile_append_of_cons {α : Type} {p : α → Bool} {l1 : List α} (l2 : List α)
    {x : α} {xs : List α} (h : l1.dropWhile p = x :: xs) :
    (l1 ++ l2).dropWhile p = x :: (xs ++ l2) := by
  induction l1 with
  | nil => cases h
  | cons a l1 ih =>
    by_cases hp : p a = true
    · simp only [List.dropWhile, hp] at h ⊢
      exact ih h
    · simp only [Bool.not_eq_true] at hp
      simp only [List.dropWhile, hp] at h ⊢
      cases h
      rfl

/-- The first survivor of a left drop fails the predicate. -/
theorem dropWhile_head_false {α : Type} {p : α → Bool} :
    ∀ {l : List α} {x : α} {xs : List α}, l.dropWhile p = x :: xs → p x = false := by
  intro l
  induction l with
  | nil => intro x xs h; cases h
  | cons a l ih =>
    intro x xs h
    by_cases hp : p a = true
    · simp only [List.dropWhile, hp] at h
      exact ih h
    · simp only [Bool.not_eq_true] at hp
      simp only [List.dropWhile, hp] at h
      cases h
      exact hp

/-- Stripping an already right-stripped list whose head is not whitespace
changes nothing. -/
theorem pyStrip_rstrip_head_false {x : Char} {xs : List Char} (hx : isPyWs x = false) :
    pyStripL (rstripPyWs (x :: xs)) = rstripPyWs (x :: xs) := by
  unfold pyStripL skipPyWs
  simp only [rstripPyWs]
  have hpre := List.rdropWhile_prefix isPyWs (x :: xs)
  cases hr : List.rdropWhile isPyWs (x :: xs) with
  | nil => rfl
  | cons y ys =>
    rw [hr] at hpre
    obtain ⟨tail, htail⟩ := hpre
    have hyx : y = x := by
      cases htail
      rfl
    have hdw : List.dropWhile isPyWs (y :: ys) = y :: ys := by
      simp [List.dropWhile, hyx, hx]
    rw [hdw, ← hr]
    exact List.rdropWhile_idempotent isPyWs (x :: xs)

/-- The closing-fence pass after the opening pass, on a newline-terminated
fenced interior, leaves exactly the stripped interior. -/
theorem subClose_strip (t : List Char) :
    pyStripL (subCloseFence (skipPyWs (t ++ '\n' :: ['`', '`', '`']))) = pyStripL t := by
  cases hdt : t.dropWhile isPyWs with
  | nil =>
    have h1 : skipPyWs (t ++ '\n' :: ['`', '`', '`']) = ['`', '`', '`'] := by
      unfold skipPyWs
      rw [dropWhile_append_of_nil _ hdt]
      rfl
    rw [h1]
    show pyStripL [] = pyStripL t
    unfold pyStripL skipPyWs
    rw [hdt]
    rfl
  | cons x xs =>
    have hx : isPyWs x = false := dropWhile_head_false hdt
    have h1 : skipPyWs (t ++ '\n' :: ['`', '`', '`']) = x :: (xs ++ '\n' :: ['`', '`', '`']) := by
      unfold skipPyWs
      exact dropWhile_append_of_cons _ hdt
    rw [h1]
    have h2 : subCloseFence (x :: (xs ++ '\n' :: ['`', '`', '`'])) = rstripPyWs (x :: xs) := by
      unfold subCloseFence
      have hrev : (x :: (xs ++ '\n' :: ['`', '`', '`'])).reverse =
          '`' :: '`' :: '`' :: '\n' :: (x :: xs).reverse := by
        simp
      rw [hrev]
      show (List.dropWhile isPyWs ('\n' :: (x :: xs).reverse)).reverse = _
      have : List.dropWhile isPyWs ('\n' :: (x :: xs).reverse) =
          List.dropWhile isPyWs ((x :: xs).reverse) := by
        simp [List.dropWhile, isPyWs]
      rw [this]
      rfl
    rw [h2, pyStrip_rstrip_head_false hx]
    show _ = rstripPyWs (t.dropWhile isPyWs)
    rw [hdt]

/-- True when the string starts with an opening fence marker. -/
def startsWithFence : List Char → Bool
  | '`' :: '`' :: '`' :: _ => true
  | _ => false

/-- True when the closing-fence pattern can match (final three backticks,
possibly followed by one newline). -/
def endsWithFence (cs : List Char) : Bool :=
  match cs.reverse with
  | '`' :: '`' :: '`' :: _ => true
  | '\n' :: '`' :: '`' :: '`' :: _ => true
  | _ => false

/-- Without an opening fence the first substitution is the identity. -/
theorem subOpenFence_eq_self {s : List Char} (h : startsWithFence s = false) :
    subOpenFence s = s := by
  unfold subOpenFence
  split
  · rename_i rest
    simp [startsWithFence] at h
  · rfl

/-- Without a closing fence the second substitution is the identity. -/
theorem subCloseFence_eq_self {s : List Char} (h : endsWithFence s = false) :
    subCloseFence s = s := by
  unfold subCloseFence
  split
  · rename_i r heq
    unfold endsWithFence at h
    rw [heq] at h
    cases h
  · rename_i r heq
    unfold endsWithFence at h
    rw [heq] at h
    cases h
  · rfl

/-- The tag consumer skips nothing when the head cannot start a tag. -/
theorem dropJsonTag_head_not_j {c : Char} (cs : List Char) (h : ¬c.toLower = 'j') :
    dropJsonTag (c :: cs) = c :: cs := by
  rcases cs with _ | ⟨c2, _ | ⟨c3, _ | ⟨c4, r⟩⟩⟩ <;> simp [dropJsonTag, h]

set_option maxRecDepth 10000 in
/-- C6 counterexample: an untagged fence with no separating whitespace
around an interior that begins with the letters of the language tag is
mis-stripped (` ```jsonic``` ` yields `ic`, not `jsonic`); whitespace
outside the fence markers defeats fence removal entirely; and decoding
the sanitized text can differ from decoding the raw interior directly
(a leading vertical tab is regex-whitespace but not JSON whitespace). -/
theorem sanitize_fence_counterexample :
    cleanStr "```jsonic```" = "ic" ∧ "ic" ≠ "jsonic" ∧
    cleanStr " ```x``` " = "```x```" ∧ "```x```" ≠ "x" ∧
    jsonLoads (cleanStr ("```json\n" ++ "\x0b\x7b\x7d" ++ "\n```")) = some (.obj []) ∧
    jsonLoads "\x0b\x7b\x7d" = none :=
  ⟨rfl, by decide, rfl, by decide, rfl, rfl⟩

/-- C6 amended: for a fenced wrapping whose opening fence (with an
optional case-insensitive `json` tag) is separated from the interior by a
newline and whose closing fence ends the text after a newline, sanitizing
yields the interior trimmed of surrounding whitespace, and sanitizing
then JSON-decoding equals decoding the trimmed interior; on input with
neither fence pattern the sanitizer returns the trimmed input unchanged
(and, being a total function, it never fails). -/
theorem sanitize_fence_amended (tag t s : List Char)
    (htag : tag = [] ∨ tag.map Char.toLower = ['j', 's', 'o', 'n'])
    (hs1 : startsWithFence s = false) (hs2 : endsWithFence s = false) :
    cleanL ('`' :: '`' :: '`' :: (tag ++ '\n' :: (t ++ '\n' :: ['`', '`', '`']))) = pyStripL t ∧
    jsonLoadsL (cleanL ('`' :: '`' :: '`' :: (tag ++ '\n' :: (t ++ '\n' :: ['`', '`', '`'])))) =
      jsonLoadsL (pyStripL t) ∧
    cleanL s = pyStripL s := by
  have hmain : cleanL ('`' :: '`' :: '`' :: (tag ++ '\n' :: (t ++ '\n' :: ['`', '`', '`']))) =
      pyStripL t := by
    show pyStripL (subCloseFence (subOpenFence
      ('`' :: '`' :: '`' :: (tag ++ '\n' :: (t ++ '\n' :: ['`', '`', '`']))))) = pyStripL t
    have hopen : subOpenFence ('`' :: '`' :: '`' :: (tag ++ '\n' :: (t ++ '\n' :: ['`', '`', '`']))) =
        skipPyWs (dropJsonTag (tag ++ '\n' :: (t ++ '\n' :: ['`', '`', '`']))) := rfl
    rw [hopen]
    have htagdrop : dropJsonTag (tag ++ '\n' :: (t ++ '\n' :: ['`', '`', '`'])) =
        '\n' :: (t ++ '\n' :: ['`', '`', '`']) := by
      rcases htag with rfl | hjson
      · exact dropJsonTag_head_not_j _ (by decide)
      · have hlen : tag.length = 4 := by
          have := congrArg List.length hjson
          simpa using this
        rcases tag with _ | ⟨c1, _ | ⟨c2, _ | ⟨c3, _ | ⟨c4, rest4⟩⟩⟩⟩ <;> simp at hlen
        have hrest4 : rest4 = [] := by
          simpa using hlen
        subst hrest4
        simp only [List.map] at hjson
        have hc1 : c1.toLower = 'j' := by injection hjson with h1 h2
        have h2 := (List.cons.injEq _ _ _ _).mp hjson
        obtain ⟨_, h3⟩ := h2
        have h4 := (List.cons.injEq _ _ _ _).mp h3
        obtain ⟨hc2, h5⟩ := h4
        have h6 := (List.cons.injEq _ _ _ _).mp h5
        obtain ⟨hc3, h7⟩ := h6
        have h8 := (List.cons.injEq _ _ _ _).mp h7
        obtain ⟨hc4, _⟩ := h8
        simp [dropJsonTag, hc1, hc2, hc3, hc4]
    rw [htagdrop]
    have hnl : skipPyWs ('\n' :: (t ++ '\n' :: ['`', '`', '`'])) =
        skipPyWs (t ++ '\n' :: ['`', '`', '`']) := by
      simp [skipPyWs, List.dropWhile, isPyWs]
    rw [hnl]
    exact subClose_strip t
  refine ⟨hmain, by rw [hmain], ?_⟩
  cases s with
  | nil => rfl
  | cons a s1 =>
    show pyStripL (subCloseFence (subOpenFence (a :: s1))) = pyStripL (a :: s1)
    rw [subOpenFence_eq_self hs1, subCloseFence_eq_self hs2]

/-- Witness for C6 amended at concrete inputs: a tagged, newline-fenced
object decodes like its trimmed interior, and a fence-free string is
returned trimmed. -/
theorem sanitize_fence_amended_witness :
    cleanL ('`' :: '`' :: '`' :: ("json".data ++ '\n' ::
        (" \x7b\"a\": 1\x7d ".data ++ '\n' :: ['`', '`', '`']))) =
      pyStripL " \x7b\"a\": 1\x7d ".data ∧
    jsonLoadsL (cleanL ('`' :: '`' :: '`' :: ("json".data ++ '\n' ::
        (" \x7b\"a\": 1\x7d ".data ++ '\n' :: ['`', '`', '`'])))) =
      jsonLoadsL (pyStripL " \x7b\"a\": 1\x7d ".data) ∧
    cleanL "plain text".data = pyStripL "plain text".data :=
  sanitize_fence_amended "json".data " \x7b\"a\": 1\x7d ".data "plain text".data
    (Or.inr (by decide)) (by decide) (by decide)
